import Mathlib

/-!
Verification of the HVAC mock-data generator
(`src/internal/hvac/generator.go` of patrik-rangel/mock-data-hvac).

Shallow embedding conventions:
* Go `float64` values become `ℚ` (the simulation only adds, multiplies,
  compares and clamps; no float-rounding behaviour is relevant to the
  properties below).
* The package-level `*rand.Rand` is modelled as a fixed draw stream
  `u : ℕ → ℚ` together with a cursor `k : ℕ`; each `rng.Float64()` call
  reads `u k` and advances the cursor, exactly in the order the Go code
  issues the calls (conditional calls advance the cursor only when taken,
  mirroring Go short-circuit evaluation).  A real Go stream satisfies
  `valid u`, i.e. every draw lies in `[0,1)`.
* `rng.Intn(10)` (used only for the device id) is modelled as one draw
  mapped uniformly to `0..9` via `⌊u k * 10⌋`.
* `time.Time` is reduced to the fields the generator reads:
  calendar month (1..12, September = 9), Go weekday (Sunday = 0 .. Saturday
  = 6) and hour of day (0..23).
* The package globals `equipmentHealth` / `currentFilterClogLevel`
  (initialised in `init` to 1.0 / 0.0) become an explicit `AssetState`
  threaded through the run, as is the rng cursor.
-/

set_option linter.unusedVariables false

namespace MockHvac

/-- The fields of `time.Time` read by the generator: `Month()`, `Weekday()`
(Go numbering, Sunday = 0), `Hour()`. -/
structure Timestamp where
  month : ℕ
  weekday : ℕ
  hour : ℕ
deriving DecidableEq, Repr

/-- Struct climate.InmetClimateData (src/cmd/mock-generator/main.go, climate
package): one hourly outdoor observation. -/
structure InmetClimateData where
  timestamp : Timestamp
  temperatureAir : ℚ
  relativeHumidity : ℚ
deriving DecidableEq, Repr

/-- The two package-level degradation globals of generator.go
(`equipmentHealth`, `currentFilterClogLevel`). -/
structure AssetState where
  equipmentHealth : ℚ
  currentFilterClogLevel : ℚ
deriving DecidableEq, Repr

/-- Struct HvacSensorData (generator.go lines 14-65), with float64 as ℚ. -/
structure HvacSensorData where
  timestamp : Timestamp
  internalTemperature : ℚ
  setPointTemperature : ℚ
  systemStatus : String
  occupancyStatus : Bool
  powerConsumptionKwH : ℚ
  outdoorTemperature : ℚ
  outdoorHumidity : ℚ
  deviceId : String
  supplyAirTemperature : ℚ
  returnAirTemperature : ℚ
  ductStaticPressurePa : ℚ
  co2LevelPpm : ℚ
  refrigerantPressurePsi : ℚ
  faultCode : String
  assetModel : String
  locationZone : String
deriving DecidableEq, Repr

/-- A draw stream is valid when every draw lies in `[0,1)`, the range of
Go `rand.Float64()`. -/
def valid (u : ℕ → ℚ) : Prop := ∀ n, 0 ≤ u n ∧ u n < 1

/-- Go `math.Abs`. -/
def mathAbs (x : ℚ) : ℚ := if x < 0 then -x else x

/-- generator.go lines 90-106: degradation of `equipmentHealth` (decrement,
floor clamp at 0.2), growth of `currentFilterClogLevel` (increment, ceiling
clamp at 1.0), and the September maintenance reset of the clog level.
Returns the updated state and the advanced cursor. -/
def updateAssetState (u : ℕ → ℚ) (month : ℕ) (st : AssetState) (k : ℕ) :
    AssetState × ℕ :=
  let h0 := st.equipmentHealth - u k * (1/10000)
  let h := if h0 < 1/5 then 1/5 else h0
  let c0 := st.currentFilterClogLevel + u (k+1) * (1/1000)
  let c := if c0 > 1 then 1 else c0
  if month = 9 then (⟨h, u (k+2) * (1/20)⟩, k+3)
  else (⟨h, c⟩, k+2)

/-- generator.go lines 205-215 (`simulateOccupancy`): one Bernoulli draw,
probability 0.90 during Mon-Fri 08:00-17:59 and 0.10 at every other time.
Exactly one draw is consumed on either path. -/
def simulateOccupancy (t : Timestamp) (u : ℕ → ℚ) (k : ℕ) : Bool × ℕ :=
  if 1 ≤ t.weekday ∧ t.weekday ≤ 5 ∧ 8 ≤ t.hour ∧ t.hour < 18 then
    (decide (u k < 9/10), k+1)
  else
    (decide (u k < 1/10), k+1)

/-- Output of the thermal-control block (generator.go lines 129-150). -/
structure ControlOut where
  systemStatus : String
  supplyTemp : ℚ
  refrigerantPressure : ℚ
  ductPressure : ℚ
  next : ℕ
deriving Repr

/-- generator.go lines 129-150: the occupancy/thermal-delta state machine.
Every reachable branch assigns `systemStatus`, so the status computed by the
earlier CO2 check (lines 122-127) is always overwritten; accordingly this
block does not read the incoming status. -/
def controlLogic (u : ℕ → ℚ) (isOccupied : Bool)
    (tempDiff returnTemp supplyTemp refrigerantPressure ductPressure : ℚ)
    (k : ℕ) : ControlOut :=
  if isOccupied then
    if mathAbs tempDiff > 4 then
      if tempDiff > 0 then
        ⟨"COOLING", returnTemp - (u k * 4 + 8), 150 + u (k+1) * 20,
          ductPressure, k+2⟩
      else
        ⟨"HEATING", returnTemp + (u k * 3 + 5), 100 + u (k+1) * 5,
          ductPressure, k+2⟩
    else if mathAbs tempDiff > 3/2 then
      ⟨"FAN_ONLY", supplyTemp, refrigerantPressure, 12 + u k, k+1⟩
    else
      ⟨"OFF", supplyTemp, refrigerantPressure, ductPressure, k⟩
  else
    ⟨"OFF", supplyTemp, refrigerantPressure, ductPressure, k⟩

/-- generator.go lines 152-171: the fault rule table, in source order.
The mode-dependent alarms draw only in `COOLING`/`HEATING`; the dirty-filter
rule draws only when `clog > 0.6` (Go short-circuit of the conjunction);
finally the duct pressure is increased by `clog * 5` and, above 20, the code
`FP-AL-02` overrides everything.  Returns (faultCode, updated ductPressure,
advanced cursor). -/
def faultLogic (u : ℕ → ℚ) (systemStatus : String)
    (equipmentHealth clog ductPressure : ℚ) (k : ℕ) : String × ℚ × ℕ :=
  let f1 : String × ℕ :=
    if systemStatus = "COOLING" then
      (if u k > equipmentHealth then "HP-AL-01" else "OK", k+1)
    else if systemStatus = "HEATING" then
      (if u k > equipmentHealth then "HT-FL-02" else "OK", k+1)
    else ("OK", k)
  let f2 : String × ℕ :=
    if clog > 3/5 then
      (if u f1.2 > 1/2 then "FP-AL-01" else f1.1, f1.2 + 1)
    else f1
  let duct := ductPressure + clog * 5
  (if duct > 20 then "FP-AL-02" else f2.1, duct, f2.2)

/-- generator.go lines 173-181: energy draw per mode.  `COOLING` and
`HEATING` are deterministic in their inputs; `FAN_ONLY` consumes one draw;
any other status (`OFF`) keeps the initial 0.0.  No final jitter and no
positive floor are applied in this revision of the code. -/
def powerLogic (u : ℕ → ℚ) (systemStatus : String)
    (tempDiff relativeHumidity equipmentHealth clog : ℚ) (k : ℕ) : ℚ × ℕ :=
  if systemStatus = "COOLING" then
    ((2 + tempDiff * 4 + relativeHumidity / 100 * 5) * (2 - equipmentHealth)
      * (1 + clog * (1/2)), k)
  else if systemStatus = "HEATING" then
    ((2 + mathAbs tempDiff * (3/2)) * (2 - equipmentHealth), k)
  else if systemStatus = "FAN_ONLY" then
    (3/10 + u k * (1/10), k+1)
  else
    (0, k)

/-- generator.go lines 86-202 (`GenerateHvacData`): one full record.
Returns the emitted `HvacSensorData`, the updated degradation globals and
the advanced rng cursor.  Draw order follows the source exactly. -/
def GenerateHvacData (u : ℕ → ℚ) (climateData : InmetClimateData)
    (st : AssetState) (k : ℕ) : HvacSensorData × AssetState × ℕ :=
  let baseInternalTemp : ℚ := 22
  let setPointDelta : ℚ := 2
  let ua := updateAssetState u climateData.timestamp.month st k
  let st1 := ua.1
  let occ := simulateOccupancy climateData.timestamp u ua.2
  let isOccupied := occ.1
  let k1 := occ.2
  let returnTemp := baseInternalTemp
    + (climateData.temperatureAir - baseInternalTemp) * (1/4)
    + (u k1 - 1/2) * (3/2)
  let setPoint := baseInternalTemp + setPointDelta * (u (k1+1) - 1/2)
  let supplyTemp := returnTemp
  let ductPressure := 10 + u (k1+2) * 2
  let co2Base := 450 + u (k1+3) * 50
  let refrigerantPressure := 80 + u (k1+4) * 5
  let k2 := k1 + 5
  let systemStatus := "OFF"
  -- lines 122-127: occupied CO2 bump and the (later overwritten) FAN_ONLY
  -- assignment when CO2 exceeds 800 while the status is still "OFF".
  let co2Upd : ℚ × String × ℕ :=
    if isOccupied then
      let co2 := 600 + u k2 * 300
      (co2, if co2 > 800 ∧ systemStatus = "OFF" then "FAN_ONLY"
            else systemStatus, k2 + 1)
    else (co2Base, systemStatus, k2)
  let co2Level := co2Upd.1
  let tempDiff := climateData.temperatureAir - setPoint
  let ctl := controlLogic u isOccupied tempDiff returnTemp supplyTemp
    refrigerantPressure ductPressure co2Upd.2.2
  let fl := faultLogic u ctl.systemStatus st1.equipmentHealth
    st1.currentFilterClogLevel ctl.ductPressure ctl.next
  let pw := powerLogic u ctl.systemStatus tempDiff
    climateData.relativeHumidity st1.equipmentHealth
    st1.currentFilterClogLevel fl.2.2
  let deviceNum := (u pw.2 * 10).floor + 1
  ({ timestamp := climateData.timestamp
     internalTemperature := returnTemp
     setPointTemperature := setPoint
     systemStatus := ctl.systemStatus
     occupancyStatus := isOccupied
     powerConsumptionKwH := pw.1
     outdoorTemperature := climateData.temperatureAir
     outdoorHumidity := climateData.relativeHumidity
     deviceId := "SALA-" ++ toString deviceNum
     supplyAirTemperature := ctl.supplyTemp
     returnAirTemperature := returnTemp
     ductStaticPressurePa := fl.2.1
     co2LevelPpm := co2Level
     refrigerantPressurePsi := ctl.refrigerantPressure
     faultCode := fl.1
     assetModel := "HVAC-Model-B"
     locationZone := "Zona-A" },
   st1, pw.2 + 1)

/-- generator.go `init` (lines 78-83): the filter starts clean and the
equipment starts 100% healthy. -/
def initAssetState : AssetState := ⟨1, 0⟩

/-- The sequential run over a record list (main.go lines 41-44): one global
rng, one global asset state, records processed in order. -/
def runFrom (u : ℕ → ℚ) (st : AssetState) (k : ℕ) :
    List InmetClimateData → List HvacSensorData
  | [] => []
  | c :: cs =>
    let r := GenerateHvacData u c st k
    r.1 :: runFrom u r.2.1 r.2.2 cs

/-- A whole run from the `init` state with cursor 0: the output sequence is
a function of the draw stream and the climate records only. -/
def GenerateAll (u : ℕ → ℚ) (records : List InmetClimateData) :
    List HvacSensorData :=
  runFrom u initAssetState 0 records

/-- The asset states observed after each per-record update of a run. -/
def assetStatesFrom (u : ℕ → ℚ) (st : AssetState) (k : ℕ) :
    List InmetClimateData → List AssetState
  | [] => []
  | c :: cs =>
    let r := GenerateHvacData u c st k
    r.2.1 :: assetStatesFrom u r.2.1 r.2.2 cs

/-! ### Helper lemmas about the embedded blocks -/

/-- Status-string facts, so that `simp`/`norm_num` can resolve the
string-guarded branches of the embedded code. -/
@[simp] theorem off_ne_cooling : ¬ ("OFF" : String) = "COOLING" := by decide

@[simp] theorem off_ne_heating : ¬ ("OFF" : String) = "HEATING" := by decide

@[simp] theorem off_ne_fan_only : ¬ ("OFF" : String) = "FAN_ONLY" := by
  decide

@[simp] theorem fan_only_ne_cooling : ¬ ("FAN_ONLY" : String) = "COOLING" :=
  by decide

@[simp] theorem fan_only_ne_heating : ¬ ("FAN_ONLY" : String) = "HEATING" :=
  by decide

@[simp] theorem heating_ne_cooling : ¬ ("HEATING" : String) = "COOLING" :=
  by decide

@[simp] theorem ok_ne_fp2 : ¬ ("OK" : String) = "FP-AL-02" := by decide

@[simp] theorem fp1_ne_fp2 : ¬ ("FP-AL-01" : String) = "FP-AL-02" := by
  decide

@[simp] theorem hp1_ne_fp2 : ¬ ("HP-AL-01" : String) = "FP-AL-02" := by
  decide

@[simp] theorem ht2_ne_fp2 : ¬ ("HT-FL-02" : String) = "FP-AL-02" := by
  decide

/-- The asset state returned by `GenerateHvacData` is exactly the output of
the degradation block (generator.go lines 90-106); nothing later in the
function writes the two globals. -/
theorem gen_state_eq (u : ℕ → ℚ) (c : InmetClimateData) (st : AssetState)
    (k : ℕ) :
    (GenerateHvacData u c st k).2.1 =
      (updateAssetState u c.timestamp.month st k).1 := rfl

/-- The duct pressure emitted by `faultLogic` is the incoming pressure plus
`clog * 5` (generator.go line 168). -/
theorem faultLogic_duct (u : ℕ → ℚ) (s : String) (eh cl d : ℚ) (k : ℕ) :
    (faultLogic u s eh cl d k).2.1 = d + cl * 5 := rfl

/-- Above the 20-unit ceiling the fault block returns `FP-AL-02`
unconditionally (generator.go lines 169-171). -/
theorem faultLogic_over (u : ℕ → ℚ) (s : String) (eh cl d : ℚ) (k : ℕ)
    (h : d + cl * 5 > 20) : (faultLogic u s eh cl d k).1 = "FP-AL-02" := by
  unfold faultLogic
  simp only
  rw [if_pos h]

/-- At or below the ceiling, `FP-AL-02` is never returned: the other rules
produce only `OK`, `HP-AL-01`, `HT-FL-02` or `FP-AL-01`. -/
theorem faultLogic_ne_fp2 (u : ℕ → ℚ) (s : String) (eh cl d : ℚ) (k : ℕ)
    (h : ¬ d + cl * 5 > 20) : (faultLogic u s eh cl d k).1 ≠ "FP-AL-02" := by
  unfold faultLogic
  simp only
  rw [if_neg h]
  split_ifs <;> dsimp only <;> decide

/-- With status `OFF`, clog at or below 0.6 and pressure at or below the
ceiling, the fault block returns `OK`. -/
theorem faultLogic_off_ok (u : ℕ → ℚ) (eh cl d : ℚ) (k : ℕ)
    (hcl : ¬ cl > 3/5) (h : ¬ d + cl * 5 > 20) :
    (faultLogic u "OFF" eh cl d k).1 = "OK" := by
  unfold faultLogic
  simp only
  rw [if_neg h, if_neg hcl,
    if_neg (by decide : ¬("OFF" : String) = "COOLING"),
    if_neg (by decide : ¬("OFF" : String) = "HEATING")]

/-- An unoccupied record drives the control block to `OFF` with all physical
readings passed through unchanged (generator.go lines 148-150). -/
theorem controlLogic_unoccupied (u : ℕ → ℚ)
    (td rt sp rp d : ℚ) (k : ℕ) :
    controlLogic u false td rt sp rp d k = ⟨"OFF", sp, rp, d, k⟩ := rfl

/-- The duct pressure leaving the control block is below 13: it is either
the incoming base (below 12) or the `FAN_ONLY` re-draw `12 + u k`. -/
theorem controlLogic_duct_lt (u : ℕ → ℚ) (occ : Bool)
    (td rt sp rp d : ℚ) (k : ℕ) (hu : valid u) (hd : d < 12) :
    (controlLogic u occ td rt sp rp d k).ductPressure < 13 := by
  unfold controlLogic
  have h1 := (hu k).2
  split_ifs <;> dsimp only <;> linarith

/-- In `OFF` mode the power block returns exactly 0 (generator.go line 120 is
never overwritten for `OFF`). -/
theorem powerLogic_off (u : ℕ → ℚ) (s : String) (td rh eh cl : ℚ) (k : ℕ)
    (h : s = "OFF") : (powerLogic u s td rh eh cl k).1 = 0 := by
  subst h; rfl

/-- The random duct-pressure base of a record is below 12 for valid draws. -/
theorem duct_base_lt {u : ℕ → ℚ} (hu : valid u) (j : ℕ) :
    10 + u j * 2 < 12 := by
  have := (hu j).2; linarith

/-- The clog level after a per-record update never exceeds 1: it is clamped
at 1 outside September and re-drawn below 0.05 in September. -/
theorem updateAssetState_clog_le_one (u : ℕ → ℚ) (m : ℕ) (st : AssetState)
    (k : ℕ) (hu : valid u) :
    (updateAssetState u m st k).1.currentFilterClogLevel ≤ 1 := by
  unfold updateAssetState
  have h2 := (hu (k+2)).2
  have h0 := (hu (k+2)).1
  split_ifs <;> dsimp only <;> first
    | linarith
    | (split_ifs <;> linarith)

/-- Composed bound: for any record assembly, the emitted duct pressure is
below 18 and the fault code is never `FP-AL-02`, provided the duct base is
below 12 and the clog level is at most 1. -/
theorem gen_fault_core (u : ℕ → ℚ) (occ : Bool) (td rt sp rp d eh cl : ℚ)
    (k kf : ℕ) (hu : valid u) (hd : d < 12) (hcl : cl ≤ 1) :
    (faultLogic u (controlLogic u occ td rt sp rp d k).systemStatus eh cl
        (controlLogic u occ td rt sp rp d k).ductPressure kf).2.1 < 18 ∧
    (faultLogic u (controlLogic u occ td rt sp rp d k).systemStatus eh cl
        (controlLogic u occ td rt sp rp d k).ductPressure kf).1 ≠ "FP-AL-02" := by
  have hduct := controlLogic_duct_lt u occ td rt sp rp d k hu hd
  rw [faultLogic_duct]
  constructor
  · linarith
  · exact faultLogic_ne_fp2 _ _ _ _ _ _ (by linarith)

/-! ### Concrete inputs used by closed theorems and witnesses -/

/-- The all-halves draw stream (every `Float64` call returns 0.5). -/
def uHalf : ℕ → ℚ := fun _ => 1/2

/-- Draw stream whose only unusual value is draw 8 (the occupied CO2 draw
of the first record when the month is not September): 0.9, giving a CO2
level of 870 ppm. -/
def uC2 : ℕ → ℚ := fun n => if n = 8 then 9/10 else 1/2

/-- Draw stream whose draw 5 (the duct-pressure base draw of the first
record when unoccupied and outside September) is 6, outside the `[0,1)`
range of `rand.Float64()`: it forces a duct base of 22. -/
def uC3 : ℕ → ℚ := fun n => if n = 5 then 6 else 1/2

/-- The all-0.9 draw stream. -/
def uNine : ℕ → ℚ := fun _ => 9/10

/-- A hot occupied business-hour record: Monday 10:00 in May, 30 °C
outdoors, 50 % relative humidity. -/
def c50 : InmetClimateData := ⟨⟨5, 1, 10⟩, 30, 50⟩

/-- Identical to `c50` except the relative humidity is 60 %. -/
def c60 : InmetClimateData := ⟨⟨5, 1, 10⟩, 30, 60⟩

/-- A mild occupied business-hour record: Monday 10:00 in May, 22 °C
outdoors (thermal delta 0 with the all-halves stream). -/
def cMonday : InmetClimateData := ⟨⟨5, 1, 10⟩, 22, 50⟩

/-- A night record: Sunday 03:00 in January, 22 °C, 50 % humidity. -/
def sundayRec : InmetClimateData := ⟨⟨1, 0, 3⟩, 22, 50⟩

/-- A weekend night record: Saturday 23:00 in March, 25 °C, 80 % humidity. -/
def cSat : InmetClimateData := ⟨⟨3, 6, 23⟩, 25, 80⟩

/-- A September night record (maintenance month): Sunday 03:00, 22 °C. -/
def cSep : InmetClimateData := ⟨⟨9, 0, 3⟩, 22, 50⟩

/-- Validity of the all-halves stream. -/
theorem uHalf_valid : valid uHalf := by
  intro n; constructor <;> norm_num [uHalf]

/-- Validity of the all-0.9 stream. -/
theorem uNine_valid : valid uNine := by
  intro n; constructor <;> norm_num [uNine]

/-! ### Claims -/

/-- Claim C3: for every climate record, whenever the emitted duct static
pressure (random base plus 5 units per unit of filter clog) exceeds the
absolute ceiling of 20, the emitted fault code is `FP-AL-02`, overriding any
code chosen by the earlier rules.  (Within this generator the condition only
arises when a draw is forced outside `[0,1)` — see claim C10 — which is why
no `valid` hypothesis is assumed here.) -/
theorem C3_duct_ceiling_overrides_fault_code (u : ℕ → ℚ)
    (c : InmetClimateData) (st : AssetState) (k : ℕ)
    (h : (GenerateHvacData u c st k).1.ductStaticPressurePa > 20) :
    (GenerateHvacData u c st k).1.faultCode = "FP-AL-02" := by
  simp only [GenerateHvacData] at h ⊢
  rw [faultLogic_duct] at h
  exact faultLogic_over _ _ _ _ _ _ h

/-- Witness for C3: with the duct base draw forced to 6 (duct base 22), the
first record generated from the initial state has duct pressure above 20 and
fault code `FP-AL-02`. -/
theorem C3_witness :
    (GenerateHvacData uC3 sundayRec initAssetState 0).1.ductStaticPressurePa
      > 20 ∧
    (GenerateHvacData uC3 sundayRec initAssetState 0).1.faultCode
      = "FP-AL-02" :=
  ⟨by norm_num [GenerateHvacData, updateAssetState, simulateOccupancy,
      controlLogic, faultLogic, powerLogic, mathAbs, uC3, sundayRec,
      initAssetState],
   C3_duct_ceiling_overrides_fault_code uC3 sundayRec initAssetState 0
    (by norm_num [GenerateHvacData, updateAssetState, simulateOccupancy,
      controlLogic, faultLogic, powerLogic, mathAbs, uC3, sundayRec,
      initAssetState])⟩

/-- Claim C10: for every climate record, every incoming asset state and
every valid draw stream (all draws in `[0,1)`, as `rand.Float64`
guarantees), the emitted duct static pressure is strictly below 18, so the
`ductPressure > 20` guard never fires and `FP-AL-02` is never emitted by
this generator. -/
theorem C10_fp_al_02_unreachable (u : ℕ → ℚ) (c : InmetClimateData)
    (st : AssetState) (k : ℕ) (hu : valid u) :
    (GenerateHvacData u c st k).1.ductStaticPressurePa < 18 ∧
    (GenerateHvacData u c st k).1.faultCode ≠ "FP-AL-02" := by
  simp only [GenerateHvacData]
  refine gen_fault_core u _ _ _ _ _ _ _ _ _ _ hu ?_ ?_
  · exact duct_base_lt hu _
  · exact updateAssetState_clog_le_one _ _ _ _ hu

/-- Witness for C10: the all-halves stream is valid, and the corresponding
first record indeed stays below the ceiling with a non-`FP-AL-02` code. -/
theorem C10_witness :
    valid uHalf ∧
    (GenerateHvacData uHalf c50 initAssetState 0).1.ductStaticPressurePa
      < 18 ∧
    (GenerateHvacData uHalf c50 initAssetState 0).1.faultCode ≠ "FP-AL-02" :=
  ⟨uHalf_valid, C10_fp_al_02_unreachable uHalf c50 initAssetState 0
    uHalf_valid⟩

/-- Claim C1 (code evaluated at the failing input): in the current
generator the COOLING power term `(RelativeHumidity/100)*5.0` is applied at
every humidity level — there is no 75 % activation threshold — so two
records identical in everything (including all draws) except humidity 50 %
vs 60 % are both processed in COOLING mode yet draw different power.  This
refutes the claimed invariance of COOLING power under humidity variations
at or below 75 %. -/
theorem C1_cooling_power_depends_on_humidity_below_75 :
    (GenerateHvacData uHalf c50 initAssetState 0).1.systemStatus
      = "COOLING" ∧
    (GenerateHvacData uHalf c60 initAssetState 0).1.systemStatus
      = "COOLING" ∧
    (GenerateHvacData uHalf c50 initAssetState 0).1.powerConsumptionKwH ≠
      (GenerateHvacData uHalf c60 initAssetState 0).1.powerConsumptionKwH := by
  norm_num [GenerateHvacData, updateAssetState, simulateOccupancy,
    controlLogic, faultLogic, powerLogic, mathAbs, uHalf, c50, c60,
    initAssetState]

/-- Claim C2 (code evaluated at the failing input): an occupied record
whose CO2 draw yields 870 ppm (> 800) and whose thermal delta is 0 (so the
control logic would leave the comfort-neutral state) is emitted with
`systemStatus = "OFF"`, not `FAN_ONLY`: the CO2-driven `FAN_ONLY`
assignment of generator.go lines 122-127 is computed before the control
block of lines 129-150, which overwrites `systemStatus` on every path, so
the ventilation override never reaches the emitted record. -/
theorem C2_co2_fan_override_is_overwritten :
    (GenerateHvacData uC2 cMonday initAssetState 0).1.occupancyStatus
      = true ∧
    (GenerateHvacData uC2 cMonday initAssetState 0).1.co2LevelPpm > 800 ∧
    (GenerateHvacData uC2 cMonday initAssetState 0).1.systemStatus
      = "OFF" := by
  norm_num [GenerateHvacData, updateAssetState, simulateOccupancy,
    controlLogic, faultLogic, powerLogic, mathAbs, uC2, cMonday,
    initAssetState]

/-- Counterexample to claim C5: an unoccupied Saturday-night record is
emitted with power consumption exactly 0 — there is no ±5 % multiplicative
jitter and no positive floor in this generator, contradicting the claim
that the emitted power is never exactly zero. -/
theorem C5_counterexample :
    (GenerateHvacData uHalf cSat initAssetState 0).1.systemStatus = "OFF" ∧
    (GenerateHvacData uHalf cSat initAssetState 0).1.powerConsumptionKwH
      = 0 := by
  norm_num [GenerateHvacData, updateAssetState, simulateOccupancy,
    controlLogic, faultLogic, powerLogic, mathAbs, uHalf, cSat,
    initAssetState]

/-- Claim C5 as amended: the emitted power is the per-mode draw with no
final jitter and no positive floor; in particular every record emitted in
`OFF` mode has power consumption exactly 0. -/
theorem C5_amended_off_power_exactly_zero (u : ℕ → ℚ)
    (c : InmetClimateData) (st : AssetState) (k : ℕ)
    (h : (GenerateHvacData u c st k).1.systemStatus = "OFF") :
    (GenerateHvacData u c st k).1.powerConsumptionKwH = 0 := by
  simp only [GenerateHvacData] at h ⊢
  exact powerLogic_off _ _ _ _ _ _ _ h

/-- Witness for the amended C5 at a concrete `OFF` record. -/
theorem C5_witness :
    (GenerateHvacData uHalf sundayRec initAssetState 0).1.systemStatus
      = "OFF" ∧
    (GenerateHvacData uHalf sundayRec initAssetState 0).1.powerConsumptionKwH
      = 0 :=
  ⟨by norm_num [GenerateHvacData, updateAssetState, simulateOccupancy,
      controlLogic, faultLogic, powerLogic, mathAbs, uHalf, sundayRec,
      initAssetState],
   C5_amended_off_power_exactly_zero uHalf sundayRec initAssetState 0
    (by norm_num [GenerateHvacData, updateAssetState, simulateOccupancy,
      controlLogic, faultLogic, powerLogic, mathAbs, uHalf, sundayRec,
      initAssetState])⟩

/-- Claim C8: the run is deterministic in the seed material: two runs whose
draw streams agree pointwise and whose climate-record sequences are equal
produce equal `SensorRecord` sequences.  The run function initialises the
asset state once (`initAssetState`, the `init` of generator.go) and threads
a single draw cursor across all records, never re-seeding per record. -/
theorem C8_determinism_given_seed (u₁ u₂ : ℕ → ℚ)
    (rs₁ rs₂ : List InmetClimateData) (hu : ∀ n, u₁ n = u₂ n)
    (hr : rs₁ = rs₂) : GenerateAll u₁ rs₁ = GenerateAll u₂ rs₂ := by
  have h : u₁ = u₂ := funext hu
  subst h; subst hr; rfl

/-- A second spelling of the all-halves stream (pointwise equal to `uHalf`
but syntactically different). -/
def uHalfB : ℕ → ℚ := fun _ => 2/4

/-- Witness for C8 at two pointwise-equal streams and equal record lists. -/
theorem C8_witness :
    (∀ n, uHalf n = uHalfB n) ∧
    GenerateAll uHalf [cMonday] = GenerateAll uHalfB [cMonday] :=
  ⟨fun n => by norm_num [uHalf, uHalfB],
   C8_determinism_given_seed uHalf uHalfB [cMonday] [cMonday]
    (fun n => by norm_num [uHalf, uHalfB]) rfl⟩

/-- Modelled from the spec: the three-bucket occupancy probability schedule
the claim describes — 0.90 during weekday business hours (Mon-Fri
08:00-17:59) excluding a 12:00-13:59 lunch window at 0.30, and 0.10 at all
other times. -/
def specOccupancyProb (t : Timestamp) : ℚ :=
  if 1 ≤ t.weekday ∧ t.weekday ≤ 5 ∧ 8 ≤ t.hour ∧ t.hour < 18 then
    if 12 ≤ t.hour ∧ t.hour < 14 then 3/10 else 9/10
  else 1/10

/-- The two-bucket schedule actually implemented by
`simulateOccupancy` in generator.go lines 205-215. -/
def occupancyProb (t : Timestamp) : ℚ :=
  if 1 ≤ t.weekday ∧ t.weekday ≤ 5 ∧ 8 ≤ t.hour ∧ t.hour < 18 then 9/10
  else 1/10

/-- Counterexample to claim C9: at Monday 13:00 (inside the claimed lunch
window) the code draws against probability 0.90 and returns occupied for a
draw of 0.5, while the claimed three-bucket schedule gives probability 0.30
there, under which a 0.5 draw would yield unoccupied. -/
theorem C9_counterexample :
    (simulateOccupancy ⟨5, 1, 13⟩ uHalf 0).1 = true ∧
    specOccupancyProb ⟨5, 1, 13⟩ = 3/10 ∧
    ¬ (uHalf 0 < specOccupancyProb ⟨5, 1, 13⟩) := by
  norm_num [simulateOccupancy, specOccupancyProb, uHalf]

/-- Claim C9 as amended: `simulateOccupancy` is the Bernoulli draw
`draw < p(t)` for the two-bucket schedule `occupancyProb` — 0.90 during
Mon-Fri 08:00-17:59 and 0.10 at all other times, with no reduced lunch
window. -/
theorem C9_amended_two_bucket_occupancy (t : Timestamp) (u : ℕ → ℚ)
    (k : ℕ) :
    simulateOccupancy t u k = (decide (u k < occupancyProb t), k + 1) := by
  unfold simulateOccupancy occupancyProb
  split_ifs <;> rfl

/-- The bounds claimed for the degradation state: health in [0.2, 1],
clog level in [0, 1]. -/
def InBounds (st : AssetState) : Prop :=
  1/5 ≤ st.equipmentHealth ∧ st.equipmentHealth ≤ 1 ∧
  0 ≤ st.currentFilterClogLevel ∧ st.currentFilterClogLevel ≤ 1

/-- One degradation update preserves the bounds. -/
theorem updateAssetState_preserves_bounds (u : ℕ → ℚ) (m : ℕ)
    (st : AssetState) (k : ℕ) (hu : valid u) (hst : InBounds st) :
    InBounds (updateAssetState u m st k).1 := by
  obtain ⟨h1, h2, h3, h4⟩ := hst
  have e0 := (hu k).1
  have e1 := (hu (k+1)).1
  have e2 := (hu (k+2)).1
  have f2 := (hu (k+2)).2
  unfold updateAssetState InBounds
  split_ifs <;> dsimp only <;>
    refine ⟨?_, ?_, ?_, ?_⟩ <;> first
      | linarith
      | (split_ifs <;> linarith)

/-- Every state in the observed trace from a bounded start state is
bounded. -/
theorem assetStatesFrom_bounds (u : ℕ → ℚ) (hu : valid u) :
    ∀ (cs : List InmetClimateData) (st : AssetState) (k : ℕ),
      InBounds st → ∀ s ∈ assetStatesFrom u st k cs, InBounds s := by
  intro cs
  induction cs with
  | nil => intro st k _ s hs; simp [assetStatesFrom] at hs
  | cons c cs ih =>
    intro st k hst s hs
    simp only [assetStatesFrom, List.mem_cons] at hs
    have hstep : InBounds (GenerateHvacData u c st k).2.1 := by
      rw [gen_state_eq]
      exact updateAssetState_preserves_bounds u _ st k hu hst
    rcases hs with hs | hs
    · rw [hs]; exact hstep
    · exact ih _ _ hstep s hs

/-- Claim C4: starting from the initial asset state (health 1.0, clog 0.0),
after every per-record update the state satisfies
0.2 ≤ equipment_health ≤ 1.0 and 0 ≤ filter_clog_level ≤ 1, for every
climate-record sequence and every valid draw stream. -/
theorem C4_asset_state_bounds (u : ℕ → ℚ)
    (recs : List InmetClimateData) (hu : valid u) :
    ∀ s ∈ assetStatesFrom u initAssetState 0 recs, InBounds s :=
  assetStatesFrom_bounds u hu recs initAssetState 0
    (by norm_num [InBounds, initAssetState])

/-- Witness for C4: the all-halves stream is valid and the bounds hold along
a concrete two-record run. -/
theorem C4_witness :
    valid uHalf ∧
    ∀ s ∈ assetStatesFrom uHalf initAssetState 0 [c50, sundayRec],
      InBounds s :=
  ⟨uHalf_valid, C4_asset_state_bounds uHalf [c50, sundayRec] uHalf_valid⟩

/-- Counterexample to claim C6: processing a September record from the
initial state leaves equipment health strictly below its previous value —
the maintenance month resets only the filter clog level; health is never
raised (generator.go line 91: degradation is continuous and does not
recover). -/
theorem C6_counterexample :
    cSep.timestamp.month = 9 ∧
    (GenerateHvacData uHalf cSep initAssetState 0).2.1.equipmentHealth
      < initAssetState.equipmentHealth := by
  norm_num [GenerateHvacData, updateAssetState, simulateOccupancy,
    controlLogic, faultLogic, powerLogic, mathAbs, uHalf, cSep,
    initAssetState]

/-- Claim C6 as amended: equipment health decreases (never increases) on
every record, including September; the filter clog level increases on every
non-September record; and in September only the clog level is reset, to a
fresh draw strictly below 0.05. -/
theorem C6_amended_cumulative_drift (u : ℕ → ℚ) (c : InmetClimateData)
    (st : AssetState) (k : ℕ) (hu : valid u)
    (hh : 1/5 ≤ st.equipmentHealth) (hc : st.currentFilterClogLevel ≤ 1) :
    (GenerateHvacData u c st k).2.1.equipmentHealth ≤ st.equipmentHealth ∧
    (c.timestamp.month = 9 →
      (GenerateHvacData u c st k).2.1.currentFilterClogLevel < 1/20) ∧
    (c.timestamp.month ≠ 9 →
      st.currentFilterClogLevel ≤
        (GenerateHvacData u c st k).2.1.currentFilterClogLevel) := by
  simp only [gen_state_eq]
  have e0 := (hu k).1
  have e1 := (hu (k+1)).1
  have e2 := (hu (k+2)).2
  unfold updateAssetState
  by_cases h9 : c.timestamp.month = 9
  · rw [if_pos h9]
    dsimp only
    refine ⟨?_, fun _ => by linarith, fun hne => absurd h9 hne⟩
    split_ifs <;> linarith
  · rw [if_neg h9]
    dsimp only
    refine ⟨?_, fun h => absurd h h9, fun _ => ?_⟩
    · split_ifs <;> linarith
    · split_ifs <;> linarith

/-- Witness for the amended C6 at a concrete non-September record. -/
theorem C6_witness :
    valid uHalf ∧
    ((GenerateHvacData uHalf c50 initAssetState 0).2.1.equipmentHealth
        ≤ initAssetState.equipmentHealth ∧
     (c50.timestamp.month = 9 →
       (GenerateHvacData uHalf c50 initAssetState 0).2.1.currentFilterClogLevel
         < 1/20) ∧
     (c50.timestamp.month ≠ 9 →
       initAssetState.currentFilterClogLevel ≤
         (GenerateHvacData uHalf c50 initAssetState 0).2.1.currentFilterClogLevel)) :=
  ⟨uHalf_valid,
   C6_amended_cumulative_drift uHalf c50 initAssetState 0 uHalf_valid
    (by norm_num [initAssetState]) (by norm_num [initAssetState])⟩

/-- Apply-friendly form of `faultLogic_off_ok` at a raw duct base. -/
theorem fault_ok_of_base (u : ℕ → ℚ) (eh cl : ℚ) (j k : ℕ) (hu : valid u)
    (hcl : cl ≤ 3/5) :
    (faultLogic u "OFF" eh cl (10 + u j * 2) k).1 = "OK" := by
  have hd := duct_base_lt hu j
  exact faultLogic_off_ok _ _ _ _ _ (by linarith) (by linarith)

/-- Claim C7 as amended: every record whose occupancy draw yields
unoccupied is emitted with status `OFF` and power exactly 0, unconditionally;
its fault code is `OK` whenever the updated filter clog level is at most
0.6 — above 0.6 the dirty-filter rule (generator.go lines 163-165) can emit
`FP-AL-01` even while unoccupied. -/
theorem C7_amended_unoccupied_off (u : ℕ → ℚ) (c : InmetClimateData)
    (st : AssetState) (k : ℕ) (hu : valid u)
    (hocc : (GenerateHvacData u c st k).1.occupancyStatus = false) :
    (GenerateHvacData u c st k).1.systemStatus = "OFF" ∧
    (GenerateHvacData u c st k).1.powerConsumptionKwH = 0 ∧
    ((GenerateHvacData u c st k).2.1.currentFilterClogLevel ≤ 3/5 →
      (GenerateHvacData u c st k).1.faultCode = "OK") := by
  simp only [GenerateHvacData] at hocc ⊢
  rw [hocc, controlLogic_unoccupied]
  dsimp only
  exact ⟨rfl, powerLogic_off _ _ _ _ _ _ _ rfl,
    fun hcl => fault_ok_of_base u _ _ _ _ hu hcl⟩

/-- Witness for the amended C7 at a concrete unoccupied record. -/
theorem C7_witness :
    valid uHalf ∧
    (GenerateHvacData uHalf cSat initAssetState 0).1.occupancyStatus
      = false ∧
    ((GenerateHvacData uHalf cSat initAssetState 0).1.systemStatus = "OFF" ∧
     (GenerateHvacData uHalf cSat initAssetState 0).1.powerConsumptionKwH
       = 0 ∧
     ((GenerateHvacData uHalf cSat
         initAssetState 0).2.1.currentFilterClogLevel ≤ 3/5 →
       (GenerateHvacData uHalf cSat initAssetState 0).1.faultCode = "OK")) :=
  ⟨uHalf_valid,
   by norm_num [GenerateHvacData, updateAssetState, simulateOccupancy,
     controlLogic, faultLogic, powerLogic, mathAbs, uHalf, cSat,
     initAssetState],
   C7_amended_unoccupied_off uHalf cSat initAssetState 0 uHalf_valid
    (by norm_num [GenerateHvacData, updateAssetState, simulateOccupancy,
      controlLogic, faultLogic, powerLogic, mathAbs, uHalf, cSat,
      initAssetState])⟩

/-- The run of the generator on an endless sequence of `sundayRec` records
with the all-0.9 stream: `chain n` is the (asset state, cursor) pair after
`n` records, starting from the `init` values. -/
def chain : ℕ → AssetState × ℕ
  | 0 => (initAssetState, 0)
  | n+1 =>
    ((GenerateHvacData uNine sundayRec (chain n).1 (chain n).2).2.1,
     (GenerateHvacData uNine sundayRec (chain n).1 (chain n).2).2.2)

/-- Closed form of the degradation state along the `chain` run: as long as
no clamp has been hit (the first 1000 records are enough for the claims
below), health is `1 - 9n/100000` and clog is `9n/10000`. -/
theorem chain_closed (n : ℕ) (hn : n ≤ 1000) :
    (chain n).1 = ⟨1 - 9 * (n : ℚ) / 100000, 9 * (n : ℚ) / 10000⟩ := by
  induction n with
  | zero => norm_num [chain, initAssetState]
  | succ n ih =>
    have hn' : n ≤ 1000 := Nat.le_of_succ_le hn
    have hq : (n : ℚ) ≤ 1000 := by exact_mod_cast hn'
    have hst := ih hn'
    show (GenerateHvacData uNine sundayRec (chain n).1 (chain n).2).2.1 = _
    rw [gen_state_eq, hst]
    unfold updateAssetState
    norm_num [uNine, sundayRec]
    rw [if_neg (by linarith), if_neg (by linarith)]
    constructor <;> ring

/-- With status `OFF`, a clogged filter (above 0.6), a filter draw above
0.5 and pressure at or below the ceiling, the fault block emits
`FP-AL-01`. -/
theorem faultLogic_fp1 (u : ℕ → ℚ) (eh cl d : ℚ) (k : ℕ)
    (hcl : cl > 3/5) (hdraw : u k > 1/2) (hd : ¬ d + cl * 5 > 20) :
    (faultLogic u "OFF" eh cl d k).1 = "FP-AL-01" := by
  unfold faultLogic
  simp [hcl, hdraw, hd]
  linarith

/-- One all-0.9 step on a Sunday-night record from any state with clog
level in (0.6, 0.95]: the record is unoccupied yet carries `FP-AL-01`. -/
theorem chainstep_fp1 (st : AssetState) (k : ℕ)
    (hcl : 3/5 < st.currentFilterClogLevel)
    (hcu : st.currentFilterClogLevel ≤ 19/20) :
    (GenerateHvacData uNine sundayRec st k).1.occupancyStatus = false ∧
    (GenerateHvacData uNine sundayRec st k).1.faultCode = "FP-AL-01" := by
  have hocc : (simulateOccupancy sundayRec.timestamp uNine
      (updateAssetState uNine sundayRec.timestamp.month st k).2).1 = false := by
    norm_num [simulateOccupancy, sundayRec, uNine]
  have hclog : (updateAssetState uNine sundayRec.timestamp.month st
        k).1.currentFilterClogLevel
      = st.currentFilterClogLevel + 9/10000 := by
    unfold updateAssetState
    norm_num [sundayRec, uNine]
    intro hcontr
    linarith
  simp only [GenerateHvacData]
  rw [hocc, controlLogic_unoccupied]
  dsimp only
  rw [hclog]
  refine ⟨rfl, ?_⟩
  refine faultLogic_fp1 _ _ _ _ _ (by linarith) (by norm_num [uNine]) ?_
  have hb : (10 : ℚ) + uNine ((simulateOccupancy sundayRec.timestamp uNine
      (updateAssetState uNine sundayRec.timestamp.month st k).2).2 + 2) * 2
      = 59/5 := by norm_num [uNine]
  rw [hb]
  intro hcontr
  linarith

/-- Counterexample to claim C7: after 778 records the run state has filter
clog level 0.7002 > 0.6; the 779th record is unoccupied (Sunday 03:00) yet
is emitted with fault code `FP-AL-01`, not `OK`. -/
theorem C7_counterexample :
    (chain 778).1.currentFilterClogLevel > 3/5 ∧
    (GenerateHvacData uNine sundayRec (chain 778).1
      (chain 778).2).1.occupancyStatus = false ∧
    (GenerateHvacData uNine sundayRec (chain 778).1
      (chain 778).2).1.faultCode = "FP-AL-01" := by
  have h := chain_closed 778 (by norm_num)
  have h1 : (3:ℚ)/5 < (chain 778).1.currentFilterClogLevel := by
    rw [h]; norm_num
  have h2 : (chain 778).1.currentFilterClogLevel ≤ 19/20 := by
    rw [h]; norm_num
  obtain ⟨ho, hf⟩ := chainstep_fp1 (chain 778).1 (chain 778).2 h1 h2
  exact ⟨h1, ho, hf⟩

end MockHvac
